import Mathlib

/-!
Verification of the SENT_Tool core against its specification.

The definitions below are a shallow embedding of the Python sources:
* `mach_protocol.py`  — STX/ETX frame building and the streaming parser
  (`calc_checksum`, `build_frame`, `MachStreamParser.feed`);
* `sensor_803405.py`  — pressure transfer function, digit-value state
  classification, slow-channel value decoding, serial/date composition;
* `live_decode.py`    — envelope payload decoding (`decode_frame`) and the
  slow-message correlation cache (`enrich_state_from_slow_cache`).

Bytes are modelled as `Nat` (with explicit `% 256` where the source masks),
byte strings as `List Nat`, Python floats as exact rationals `ℚ`, and Python
dicts with fixed key sets as structures with `Option` fields.
-/

namespace SentTool

/-! ### mach_protocol.py -/

def STX : Nat := 0x02
def ETX : Nat := 0x03

structure MachFrame where
  msg_id : Nat
  data : List Nat
  checksum_ok : Bool
  checksum : Nat
  raw : List Nat
deriving DecidableEq, Repr

/-- 1-byte sum of ID, DATALEN (2 bytes, LSB first) and all DATA bytes. -/
def calc_checksum (msg_id : Nat) (datalen : Nat) (data : List Nat) : Nat :=
  (msg_id + datalen % 256 + datalen / 256 % 256 + data.sum) % 256

/-- `STX ID LEN_L LEN_H DATA… CHK ETX`. -/
def build_frame (msg_id : Nat) (data : List Nat) : List Nat :=
  STX :: msg_id :: (data.length % 256) :: (data.length / 256 % 256) ::
    (data ++ [calc_checksum msg_id data.length data, ETX])

/-- Discard leading non-STX noise (`self._buf.index(STX)` / `clear()`). -/
def stripNoise (l : List Nat) : List Nat := l.dropWhile (fun x => x != STX)

/-- DATALEN parsed from a buffer whose first byte is the STX. -/
def frameDatalen (b : List Nat) : Nat := b.getD 2 0 + b.getD 3 0 * 256

/-- STX + ID + LEN + DATA + CHK + ETX. -/
def frameTotal (b : List Nat) : Nat := frameDatalen b + 6

/-- The frame extracted from a buffer holding a full candidate. -/
def mkFrame (b : List Nat) : MachFrame :=
  let datalen := frameDatalen b
  { msg_id := b.getD 1 0
    data := (b.drop 4).take datalen
    checksum_ok := b.getD (4 + datalen) 0 == calc_checksum (b.getD 1 0) datalen ((b.drop 4).take datalen)
    checksum := b.getD (4 + datalen) 0
    raw := b.take (frameTotal b) }

/-- The `while True` loop of `MachStreamParser.feed`, acting on a buffer whose
leading noise has been stripped.  The fuel argument only drives termination;
every call site supplies at least the buffer length. -/
def machGo : Nat → List Nat → List MachFrame × List Nat
  | 0, b => ([], b)
  | fuel + 1, b =>
    if b.length < 4 then ([], b)
    else if b.length < frameTotal b then ([], b)
    else if b.getD (frameTotal b - 1) 0 = ETX then
      let res := machGo fuel (stripNoise (b.drop (frameTotal b)))
      (mkFrame b :: res.1, res.2)
    else
      machGo fuel (stripNoise (b.drop 1))

/-- One run of the parse loop over a buffer: emitted frames and leftover. -/
def machProcess (buf : List Nat) : List MachFrame × List Nat :=
  machGo buf.length (stripNoise buf)

structure MachStreamParser where
  buf : List Nat
deriving DecidableEq, Repr

def MachStreamParser.new : MachStreamParser := ⟨[]⟩

/-- `feed`: extend the buffer by the chunk, run the loop, keep the leftover. -/
def MachStreamParser.feed (p : MachStreamParser) (chunk : List Nat) :
    List MachFrame × MachStreamParser :=
  let r := machProcess (p.buf ++ chunk)
  (r.1, ⟨r.2⟩)

/-- Sequential feeding of several chunks, concatenating the emitted frames. -/
def feedMany (p : MachStreamParser) (chunks : List (List Nat)) :
    List MachFrame × MachStreamParser :=
  match chunks with
  | [] => ([], p)
  | c :: cs =>
    let r := p.feed c
    let rest := feedMany r.2 cs
    (r.1 ++ rest.1, rest.2)

/-! #### Basic lemmas about the parser -/

theorem length_stripNoise_le (l : List Nat) : (stripNoise l).length ≤ l.length := by
  induction l with
  | nil => simp [stripNoise]
  | cons x xs ih =>
    by_cases h : x = STX
    · simp [stripNoise, List.dropWhile_cons, h]
    · simp only [stripNoise, List.dropWhile_cons] at ih ⊢
      simp only [h, bne_iff_ne, ne_eq, not_false_iff, if_pos, ite_true]
      · exact le_trans ih (Nat.le_succ _)

theorem stripNoise_cons_stx (xs : List Nat) : stripNoise (STX :: xs) = STX :: xs := by
  simp [stripNoise, List.dropWhile_cons]

theorem stripNoise_idem (l : List Nat) : stripNoise (stripNoise l) = stripNoise l := by
  induction l with
  | nil => rfl
  | cons x xs ih =>
    by_cases h : x = STX
    · subst h; rw [stripNoise_cons_stx, stripNoise_cons_stx]
    · simp only [stripNoise, List.dropWhile_cons] at ih ⊢
      simp only [h, bne_iff_ne, ne_eq, not_false_iff, ite_true]
      exact ih

theorem stripNoise_append_noise (noise b : List Nat) (h : ∀ x ∈ noise, x ≠ STX) :
    stripNoise (noise ++ b) = stripNoise b := by
  induction noise with
  | nil => rfl
  | cons x xs ih =>
    have hx : x ≠ STX := h x (List.mem_cons_self x xs)
    simp only [List.cons_append, stripNoise, List.dropWhile_cons, bne_iff_ne, ne_eq, hx,
      not_false_iff, ite_true]
    exact ih (fun y hy => h y (List.mem_cons_of_mem x hy))

theorem stripNoise_append_of_ne_nil (a b : List Nat) (h : stripNoise a ≠ []) :
    stripNoise (a ++ b) = stripNoise a ++ b := by
  induction a with
  | nil => simp [stripNoise] at h
  | cons x xs ih =>
    by_cases hx : x = STX
    · subst hx
      rw [List.cons_append, stripNoise_cons_stx, stripNoise_cons_stx, List.cons_append]
    · simp only [stripNoise, List.dropWhile_cons, bne_iff_ne, ne_eq, hx, not_false_iff,
        ite_true] at h ⊢
      rw [List.cons_append]
      simp only [stripNoise, List.dropWhile_cons, bne_iff_ne, ne_eq, hx, not_false_iff, ite_true]
      exact ih h

theorem stripNoise_head (r : List Nat) (h : stripNoise r = r) :
    r = [] ∨ r.head? = some STX := by
  cases r with
  | nil => exact Or.inl rfl
  | cons x xs =>
    right
    by_cases hx : x = STX
    · simp [hx]
    · exfalso
      simp only [stripNoise, List.dropWhile_cons, bne_iff_ne, ne_eq, hx, not_false_iff,
        ite_true] at h
      have hlen := length_stripNoise_le xs
      simp only [stripNoise] at hlen
      rw [h] at hlen
      simp at hlen

theorem machGo_nil (fuel : Nat) : machGo fuel [] = ([], []) := by
  cases fuel with
  | zero => rfl
  | succ f => simp [machGo]

/-- The fuel argument does not matter as long as it dominates the buffer
length: `machGo` only ever recurses on strictly shorter buffers. -/
theorem machGo_fuel_irrel (f : Nat) : ∀ (g : Nat) (b : List Nat),
    b.length ≤ f → b.length ≤ g → machGo f b = machGo g b := by
  induction f with
  | zero =>
    intro g b hf _
    have : b = [] := List.length_eq_zero.mp (Nat.le_zero.mp hf)
    subst this
    rw [machGo_nil, machGo_nil]
  | succ f ih =>
    intro g b hf hg
    cases g with
    | zero =>
      have : b = [] := List.length_eq_zero.mp (Nat.le_zero.mp hg)
      subst this
      rw [machGo_nil, machGo_nil]
    | succ g =>
      simp only [machGo]
      by_cases h4 : b.length < 4
      · simp [h4]
      · simp only [h4, if_false]
        by_cases hT : b.length < frameTotal b
        · simp [hT]
        · simp only [hT, if_false]
          have hTot : 6 ≤ frameTotal b := by unfold frameTotal; omega
          have hTle : frameTotal b ≤ b.length := Nat.le_of_not_lt hT
          by_cases hE : b.getD (frameTotal b - 1) 0 = ETX
          · simp only [hE, if_true]
            have h1 : (stripNoise (b.drop (frameTotal b))).length ≤ f := by
              have := length_stripNoise_le (b.drop (frameTotal b))
              simp only [List.length_drop] at this
              omega
            have h2 : (stripNoise (b.drop (frameTotal b))).length ≤ g := by
              have := length_stripNoise_le (b.drop (frameTotal b))
              simp only [List.length_drop] at this
              omega
            rw [ih g _ h1 h2]
          · simp only [hE, if_false]
            have h1 : (stripNoise (b.drop 1)).length ≤ f := by
              have := length_stripNoise_le (b.drop 1)
              simp only [List.length_drop] at this
              omega
            have h2 : (stripNoise (b.drop 1)).length ≤ g := by
              have := length_stripNoise_le (b.drop 1)
              simp only [List.length_drop] at this
              omega
            rw [ih g _ h1 h2]

theorem machProcess_nil : machProcess [] = ([], []) := rfl

/-- Processing ignores leading noise: the loop starts with the STX scan. -/
theorem machProcess_stripNoise (a : List Nat) : machProcess (stripNoise a) = machProcess a := by
  unfold machProcess
  rw [stripNoise_idem]
  exact machGo_fuel_irrel _ _ _ (le_refl _) (length_stripNoise_le a)

theorem machProcess_short (a : List Nat) (hs : stripNoise a = a) (h4 : a.length < 4) :
    machProcess a = ([], a) := by
  unfold machProcess
  rw [hs]
  cases hl : a.length with
  | zero =>
    have : a = [] := List.length_eq_zero.mp hl
    subst this
    rfl
  | succ k =>
    rw [hl] at h4
    simp [machGo, hl, h4]

theorem machProcess_incomplete (a : List Nat) (hs : stripNoise a = a)
    (h4 : ¬ a.length < 4) (hT : a.length < frameTotal a) :
    machProcess a = ([], a) := by
  unfold machProcess
  rw [hs]
  cases hl : a.length with
  | zero => omega
  | succ k =>
    rw [hl] at h4 hT
    simp [machGo, hl, h4, hT]

theorem machProcess_resync (a : List Nat) (hs : stripNoise a = a)
    (h4 : ¬ a.length < 4) (hT : ¬ a.length < frameTotal a)
    (hE : a.getD (frameTotal a - 1) 0 ≠ ETX) :
    machProcess a = machProcess (a.drop 1) := by
  unfold machProcess
  rw [hs]
  cases hl : a.length with
  | zero => omega
  | succ k =>
    rw [hl] at h4 hT
    simp only [machGo, hl, h4, hT, hE, if_false]
    apply machGo_fuel_irrel
    · have := length_stripNoise_le (a.drop 1)
      simp only [List.length_drop] at this
      omega
    · exact le_trans (length_stripNoise_le _) (le_refl _)

theorem machProcess_frame (a : List Nat) (hs : stripNoise a = a)
    (h4 : ¬ a.length < 4) (hT : ¬ a.length < frameTotal a)
    (hE : a.getD (frameTotal a - 1) 0 = ETX) :
    machProcess a =
      (mkFrame a :: (machProcess (a.drop (frameTotal a))).1,
        (machProcess (a.drop (frameTotal a))).2) := by
  unfold machProcess
  rw [hs]
  cases hl : a.length with
  | zero => omega
  | succ k =>
    rw [hl] at h4 hT
    simp only [machGo, hl, h4, hT, hE, if_false, if_true]
    have heq : machGo k (stripNoise (a.drop (frameTotal a))) =
        machGo (a.drop (frameTotal a)).length (stripNoise (a.drop (frameTotal a))) := by
      apply machGo_fuel_irrel
      · have h1 := length_stripNoise_le (a.drop (frameTotal a))
        have h6 : 6 ≤ frameTotal a := by unfold frameTotal; omega
        simp only [List.length_drop] at h1
        omega
      · exact length_stripNoise_le _
    rw [heq]

theorem getD_append_left (l1 l2 : List Nat) (n d : Nat) (h : n < l1.length) :
    (l1 ++ l2).getD n d = l1.getD n d := by
  induction l1 generalizing n with
  | nil => simp at h
  | cons x xs ih =>
    cases n with
    | zero => rfl
    | succ m =>
      simp only [List.cons_append, List.getD_cons_succ]
      exact ih m (by simpa using h)

theorem getD_append_right (l1 l2 : List Nat) (n d : Nat) (h : l1.length ≤ n) :
    (l1 ++ l2).getD n d = l2.getD (n - l1.length) d := by
  induction l1 generalizing n with
  | nil => simp
  | cons x xs ih =>
    cases n with
    | zero => simp at h
    | succ m =>
      simp only [List.cons_append, List.getD_cons_succ, List.length_cons]
      rw [ih m (by simpa using h)]
      congr 1
      omega

theorem frameDatalen_append (s b : List Nat) (h : 4 ≤ s.length) :
    frameDatalen (s ++ b) = frameDatalen s := by
  unfold frameDatalen
  rw [getD_append_left _ _ _ _ (by omega), getD_append_left _ _ _ _ (by omega)]

theorem frameTotal_append (s b : List Nat) (h : 4 ≤ s.length) :
    frameTotal (s ++ b) = frameTotal s := by
  unfold frameTotal
  rw [frameDatalen_append s b h]

theorem mkFrame_append (s b : List Nat) (h4 : 4 ≤ s.length)
    (hT : frameTotal s ≤ s.length) : mkFrame (s ++ b) = mkFrame s := by
  have hdl : frameDatalen (s ++ b) = frameDatalen s := frameDatalen_append s b h4
  have hdlle : frameDatalen s + 6 ≤ s.length := by
    have : frameTotal s = frameDatalen s + 6 := rfl
    omega
  have hdata : ((s ++ b).drop 4).take (frameDatalen s) = (s.drop 4).take (frameDatalen s) := by
    rw [List.drop_append_of_le_length (by omega)]
    rw [List.take_append_of_le_length (by simp; omega)]
  have hchk : (s ++ b).getD (4 + frameDatalen s) 0 = s.getD (4 + frameDatalen s) 0 :=
    getD_append_left _ _ _ _ (by omega)
  have hid : (s ++ b).getD 1 0 = s.getD 1 0 := getD_append_left _ _ _ _ (by omega)
  have hraw : (s ++ b).take (frameTotal s) = s.take (frameTotal s) :=
    List.take_append_of_le_length (by omega)
  unfold mkFrame
  simp only [hdl, frameTotal_append s b h4, hdata, hchk, hid, hraw]

theorem stripNoise_head_stx_append (s b : List Nat) (h : s.head? = some STX) :
    stripNoise (s ++ b) = s ++ b := by
  cases s with
  | nil => simp at h
  | cons x xs =>
    simp only [List.head?_cons, Option.some_inj] at h
    subst h
    rw [List.cons_append, stripNoise_cons_stx]

/-- Splitting a byte stream anywhere commutes with parsing:
the leftover of the first part picks up exactly where the whole-stream parse
would, with the same frames in the same order. -/
theorem machProcess_append : ∀ (n : Nat) (a b : List Nat), a.length ≤ n →
    machProcess (a ++ b) =
      ((machProcess a).1 ++ (machProcess ((machProcess a).2 ++ b)).1,
        (machProcess ((machProcess a).2 ++ b)).2) := by
  intro n
  induction n with
  | zero =>
    intro a b ha
    have : a = [] := List.length_eq_zero.mp (Nat.le_zero.mp ha)
    subst this
    simp only [List.nil_append, machProcess_nil]
  | succ n ih =>
    intro a b ha
    by_cases hs : stripNoise a = []
    · -- all of `a` is noise: it is dropped either way
      have hpa : machProcess a = ([], []) := by
        unfold machProcess
        rw [hs, machGo_nil]
      have hstrip : stripNoise (a ++ b) = stripNoise b := by
        simp only [stripNoise] at hs ⊢
        rw [List.dropWhile_append, hs]
        simp
      have : machProcess (a ++ b) = machProcess b := by
        unfold machProcess
        rw [hstrip]
        exact machGo_fuel_irrel _ _ _
          (le_trans (length_stripNoise_le b) (by simp)) (length_stripNoise_le b)
      rw [this, hpa]
      simp only [List.nil_append]
    · -- the stripped buffer starts with the STX
      obtain ⟨xs, hxs⟩ : ∃ xs, stripNoise a = STX :: xs := by
        cases hcase : stripNoise a with
        | nil => exact absurd hcase hs
        | cons y ys =>
          have hh := stripNoise_head (stripNoise a) (stripNoise_idem a)
          rw [hcase] at hh
          rcases hh with h | h
          · simp at h
          · simp only [List.head?_cons, Option.some_inj] at h
            exact ⟨ys, by rw [h]⟩
      obtain ⟨s, hhead, hss, hslen, hpa, hpab⟩ :
          ∃ s : List Nat, s.head? = some STX ∧ stripNoise s = s ∧ s.length ≤ a.length ∧
            machProcess a = machProcess s ∧ machProcess (a ++ b) = machProcess (s ++ b) := by
        refine ⟨STX :: xs, rfl, stripNoise_cons_stx xs, ?_, ?_, ?_⟩
        · rw [← hxs]; exact length_stripNoise_le a
        · rw [← hxs]; exact (machProcess_stripNoise a).symm
        · unfold machProcess
          rw [stripNoise_append_of_ne_nil a b hs, hxs,
            stripNoise_head_stx_append (STX :: xs) b rfl]
          apply machGo_fuel_irrel
          · have : (STX :: xs).length ≤ a.length := by
              rw [← hxs]; exact length_stripNoise_le a
            simp only [List.length_append]
            omega
          · exact le_refl _
      rw [hpab, hpa]
      -- now the buffer starts with a candidate frame
      by_cases h4 : s.length < 4
      · -- incomplete header: everything is leftover
        rw [machProcess_short s hss h4]
        simp only [List.nil_append]
      · by_cases hT : s.length < frameTotal s
        · -- incomplete frame: everything is leftover
          rw [machProcess_incomplete s hss h4 hT]
          simp only [List.nil_append]
        · have h4' : ¬ (s ++ b).length < 4 := by simp; omega
          have hT' : ¬ (s ++ b).length < frameTotal (s ++ b) := by
            rw [frameTotal_append s b (by omega)]
            simp
            omega
          have hTle : frameTotal s ≤ s.length := Nat.le_of_not_lt hT
          have h6 : 6 ≤ frameTotal s := by unfold frameTotal; omega
          have hssb : stripNoise (s ++ b) = s ++ b := stripNoise_head_stx_append s b hhead
          have hEsame : (s ++ b).getD (frameTotal (s ++ b) - 1) 0 =
              s.getD (frameTotal s - 1) 0 := by
            rw [frameTotal_append s b (by omega)]
            exact getD_append_left _ _ _ _ (by omega)
          by_cases hE : s.getD (frameTotal s - 1) 0 = ETX
          · -- a full frame is emitted, then the loop continues
            have hfr := machProcess_frame s hss h4 hT hE
            have hfr' := machProcess_frame (s ++ b) hssb h4' hT' (by rw [hEsame]; exact hE)
            have hdropeq : (s ++ b).drop (frameTotal (s ++ b)) = s.drop (frameTotal s) ++ b := by
              rw [frameTotal_append s b (by omega)]
              exact List.drop_append_of_le_length hTle
            have hmk : mkFrame (s ++ b) = mkFrame s := mkFrame_append s b (by omega) hTle
            have hih := ih (s.drop (frameTotal s)) b (by simp; omega)
            rw [hfr', hdropeq, hmk, hih, hfr]
            simp only [List.cons_append]
          · -- corrupt candidate: drop one byte and resync, both sides alike
            have hre := machProcess_resync s hss h4 hT hE
            have hre' := machProcess_resync (s ++ b) hssb h4' hT' (by rw [hEsame]; exact hE)
            have hdropeq : (s ++ b).drop 1 = s.drop 1 ++ b :=
              List.drop_append_of_le_length (by omega)
            rw [hre', hdropeq, hre]
            exact ih (s.drop 1) b (by simp; omega)

/-- The leftover buffer of a parse run is quiescent: running the loop on it
again emits nothing and leaves it unchanged. -/
theorem machProcess_leftover : ∀ (n : Nat) (a : List Nat), a.length ≤ n →
    machProcess (machProcess a).2 = ([], (machProcess a).2) := by
  intro n
  induction n with
  | zero =>
    intro a ha
    have : a = [] := List.length_eq_zero.mp (Nat.le_zero.mp ha)
    subst this
    rw [machProcess_nil]
    rfl
  | succ n ih =>
    intro a ha
    by_cases hs : stripNoise a = []
    · have hpa : machProcess a = ([], []) := by
        unfold machProcess
        rw [hs, machGo_nil]
      rw [hpa]
      rfl
    · obtain ⟨xs, hxs⟩ : ∃ xs, stripNoise a = STX :: xs := by
        cases hcase : stripNoise a with
        | nil => exact absurd hcase hs
        | cons y ys =>
          have hh := stripNoise_head (stripNoise a) (stripNoise_idem a)
          rw [hcase] at hh
          rcases hh with h | h
          · simp at h
          · simp only [List.head?_cons, Option.some_inj] at h
            exact ⟨ys, by rw [h]⟩
      obtain ⟨s, hhead, hss, hslen, hpa⟩ :
          ∃ s : List Nat, s.head? = some STX ∧ stripNoise s = s ∧ s.length ≤ a.length ∧
            machProcess a = machProcess s := by
        refine ⟨STX :: xs, rfl, stripNoise_cons_stx xs, ?_, ?_⟩
        · rw [← hxs]; exact length_stripNoise_le a
        · rw [← hxs]; exact (machProcess_stripNoise a).symm
      rw [hpa]
      by_cases h4 : s.length < 4
      · rw [machProcess_short s hss h4]
        exact machProcess_short s hss h4
      · by_cases hT : s.length < frameTotal s
        · rw [machProcess_incomplete s hss h4 hT]
          exact machProcess_incomplete s hss h4 hT
        · have h6 : 6 ≤ frameTotal s := by unfold frameTotal; omega
          have hTle : frameTotal s ≤ s.length := Nat.le_of_not_lt hT
          by_cases hE : s.getD (frameTotal s - 1) 0 = ETX
          · rw [machProcess_frame s hss h4 hT hE]
            exact ih (s.drop (frameTotal s)) (by simp; omega)
          · rw [machProcess_resync s hss h4 hT hE]
            exact ih (s.drop 1) (by simp; omega)

/-- The leftover buffer of a parse run carries no leading noise. -/
theorem machProcess_snd_stripped : ∀ (n : Nat) (a : List Nat), a.length ≤ n →
    stripNoise (machProcess a).2 = (machProcess a).2 := by
  intro n
  induction n with
  | zero =>
    intro a ha
    have : a = [] := List.length_eq_zero.mp (Nat.le_zero.mp ha)
    subst this
    rw [machProcess_nil]
    rfl
  | succ n ih =>
    intro a ha
    by_cases hs : stripNoise a = []
    · have hpa : machProcess a = ([], []) := by
        unfold machProcess
        rw [hs, machGo_nil]
      rw [hpa]
      rfl
    · obtain ⟨xs, hxs⟩ : ∃ xs, stripNoise a = STX :: xs := by
        cases hcase : stripNoise a with
        | nil => exact absurd hcase hs
        | cons y ys =>
          have hh := stripNoise_head (stripNoise a) (stripNoise_idem a)
          rw [hcase] at hh
          rcases hh with h | h
          · simp at h
          · simp only [List.head?_cons, Option.some_inj] at h
            exact ⟨ys, by rw [h]⟩
      obtain ⟨s, hhead, hss, hslen, hpa⟩ :
          ∃ s : List Nat, s.head? = some STX ∧ stripNoise s = s ∧ s.length ≤ a.length ∧
            machProcess a = machProcess s := by
        refine ⟨STX :: xs, rfl, stripNoise_cons_stx xs, ?_, ?_⟩
        · rw [← hxs]; exact length_stripNoise_le a
        · rw [← hxs]; exact (machProcess_stripNoise a).symm
      rw [hpa]
      by_cases h4 : s.length < 4
      · rw [machProcess_short s hss h4]
        exact hss
      · by_cases hT : s.length < frameTotal s
        · rw [machProcess_incomplete s hss h4 hT]
          exact hss
        · have h6 : 6 ≤ frameTotal s := by unfold frameTotal; omega
          have hTle : frameTotal s ≤ s.length := Nat.le_of_not_lt hT
          by_cases hE : s.getD (frameTotal s - 1) 0 = ETX
          · rw [machProcess_frame s hss h4 hT hE]
            exact ih (s.drop (frameTotal s)) (by simp; omega)
          · rw [machProcess_resync s hss h4 hT hE]
            exact ih (s.drop 1) (by simp; omega)

/-- Feeding chunks one at a time from a quiescent buffer is the same as one
parse run over the whole stream. -/
theorem feedMany_eq (chunks : List (List Nat)) : ∀ (buf : List Nat),
    machProcess buf = ([], buf) →
    feedMany ⟨buf⟩ chunks =
      ((machProcess (buf ++ chunks.flatten)).1, ⟨(machProcess (buf ++ chunks.flatten)).2⟩) := by
  induction chunks with
  | nil =>
    intro buf hq
    simp only [feedMany, List.flatten_nil, List.append_nil, hq]
  | cons c cs ih =>
    intro buf hq
    have hfeed : (MachStreamParser.mk buf).feed c =
        ((machProcess (buf ++ c)).1, ⟨(machProcess (buf ++ c)).2⟩) := rfl
    have hq2 : machProcess (machProcess (buf ++ c)).2 = ([], (machProcess (buf ++ c)).2) :=
      machProcess_leftover (buf ++ c).length (buf ++ c) (le_refl _)
    have hihx := ih (machProcess (buf ++ c)).2 hq2
    have happ := machProcess_append (buf ++ c).length (buf ++ c) cs.flatten (le_refl _)
    simp only [feedMany, hfeed, hihx, List.flatten_cons]
    rw [← List.append_assoc, happ]

/-! #### Parsing a freshly built frame -/

theorem build_frame_length (msg_id : Nat) (data : List Nat) :
    (build_frame msg_id data).length = data.length + 6 := by
  simp [build_frame]

theorem machProcess_build (msg_id : Nat) (data : List Nat) (hn : data.length ≤ 65535) :
    machProcess (build_frame msg_id data) =
      ([{ msg_id := msg_id, data := data, checksum_ok := true,
          checksum := calc_checksum msg_id data.length data,
          raw := build_frame msg_id data }], []) := by
  have hss : stripNoise (build_frame msg_id data) = build_frame msg_id data :=
    stripNoise_cons_stx _
  have hlen := build_frame_length msg_id data
  have hdl : frameDatalen (build_frame msg_id data) = data.length := by
    unfold build_frame frameDatalen
    simp only [List.getD_cons_succ, List.getD_cons_zero]
    omega
  have hTot : frameTotal (build_frame msg_id data) = data.length + 6 := by
    unfold frameTotal
    rw [hdl]
  have h4 : ¬ (build_frame msg_id data).length < 4 := by omega
  have hT : ¬ (build_frame msg_id data).length < frameTotal (build_frame msg_id data) := by
    omega
  have hE : (build_frame msg_id data).getD
      (frameTotal (build_frame msg_id data) - 1) 0 = ETX := by
    rw [hTot]
    unfold build_frame
    have e1 : data.length + 6 - 1 = (data.length + 4) + 1 := by omega
    rw [e1, List.getD_cons_succ]
    have e2 : data.length + 4 = (data.length + 3) + 1 := by omega
    rw [e2, List.getD_cons_succ]
    have e3 : data.length + 3 = (data.length + 2) + 1 := by omega
    rw [e3, List.getD_cons_succ]
    have e4 : data.length + 2 = (data.length + 1) + 1 := by omega
    rw [e4, List.getD_cons_succ]
    rw [getD_append_right data _ _ _ (by omega)]
    have e5 : data.length + 1 - data.length = 1 := by omega
    rw [e5]
    rfl
  have hid : (build_frame msg_id data).getD 1 0 = msg_id := rfl
  have hdata : ((build_frame msg_id data).drop 4).take data.length = data := by
    unfold build_frame
    show (data ++ [calc_checksum msg_id data.length data, ETX]).take data.length = data
    exact List.take_left data _
  have hchk : (build_frame msg_id data).getD (4 + data.length) 0 =
      calc_checksum msg_id data.length data := by
    unfold build_frame
    have e1 : 4 + data.length = (data.length + 3) + 1 := by omega
    rw [e1, List.getD_cons_succ]
    have e2 : data.length + 3 = (data.length + 2) + 1 := by omega
    rw [e2, List.getD_cons_succ]
    have e3 : data.length + 2 = (data.length + 1) + 1 := by omega
    rw [e3, List.getD_cons_succ]
    have e4 : data.length + 1 = data.length + 1 := rfl
    rw [List.getD_cons_succ]
    rw [getD_append_right data _ _ _ (by omega)]
    have e5 : data.length - data.length = 0 := by omega
    rw [e5]
    rfl
  have hraw : (build_frame msg_id data).take (frameTotal (build_frame msg_id data)) =
      build_frame msg_id data := by
    rw [hTot, ← hlen]
    exact List.take_length _
  have hmk : mkFrame (build_frame msg_id data) =
      { msg_id := msg_id, data := data, checksum_ok := true,
        checksum := calc_checksum msg_id data.length data,
        raw := build_frame msg_id data } := by
    unfold mkFrame
    simp only [hdl, hid, hdata, hchk, hraw, beq_self_eq_true]
  have hdrop : (build_frame msg_id data).drop (frameTotal (build_frame msg_id data)) = [] := by
    rw [hTot, ← hlen]
    exact List.drop_length _
  rw [machProcess_frame _ hss h4 hT hE, hdrop, machProcess_nil, hmk]

/-! ## Claims about the framer -/

/-- C1: for every message id byte and every payload of length `0 ≤ n ≤ 65535`,
feeding `build_frame msg_id payload` to a freshly created framer yields exactly
one frame whose `msg_id` is the given id, whose `data` is the payload
byte-for-byte, and whose `checksum_ok` flag is true. -/
theorem frame_roundtrip (msg_id : Nat) (data : List Nat)
    (hid : msg_id < 256) (hdata : ∀ b ∈ data, b < 256) (hn : data.length ≤ 65535) :
    (MachStreamParser.new.feed (build_frame msg_id data)).1 =
      [{ msg_id := msg_id, data := data, checksum_ok := true,
         checksum := calc_checksum msg_id data.length data,
         raw := build_frame msg_id data }] := by
  show (machProcess ([] ++ build_frame msg_id data)).1 = _
  rw [List.nil_append, machProcess_build msg_id data hn]

theorem frame_roundtrip_witness :
    0x95 < 256 ∧ (∀ b ∈ [1, 2, 3], b < 256) ∧ ([1, 2, 3] : List Nat).length ≤ 65535 ∧
      (MachStreamParser.new.feed (build_frame 0x95 [1, 2, 3])).1 =
        [{ msg_id := 0x95, data := [1, 2, 3], checksum_ok := true,
           checksum := calc_checksum 0x95 3 [1, 2, 3],
           raw := build_frame 0x95 [1, 2, 3] }] :=
  ⟨by decide, by decide, by decide,
    frame_roundtrip 0x95 [1, 2, 3] (by decide) (by decide) (by decide)⟩

/-- C2: feeding any sequence of chunks to a fresh framer produces, over the
successive calls, the same ordered frame sequence as feeding the concatenated
stream in a single call. -/
theorem feed_chunked_eq_feed_whole (chunks : List (List Nat)) :
    (feedMany MachStreamParser.new chunks).1 =
      (MachStreamParser.new.feed chunks.flatten).1 := by
  have h := feedMany_eq chunks [] machProcess_nil
  show (feedMany ⟨[]⟩ chunks).1 = _
  rw [h]
  rfl

/-- C10: after every sequence of `feed` calls on a fresh framer, the internal
buffer is either empty or starts with the STX marker — leading noise never
persists across calls. -/
theorem feed_buffer_invariant (chunks : List (List Nat)) :
    (feedMany MachStreamParser.new chunks).2.buf = [] ∨
      (feedMany MachStreamParser.new chunks).2.buf.head? = some STX := by
  suffices h : ∀ (cs : List (List Nat)) (buf : List Nat), stripNoise buf = buf →
      stripNoise (feedMany ⟨buf⟩ cs).2.buf = (feedMany ⟨buf⟩ cs).2.buf by
    exact stripNoise_head _ (h chunks [] rfl)
  intro cs
  induction cs with
  | nil =>
    intro buf hb
    exact hb
  | cons c cs ih =>
    intro buf hb
    show stripNoise (feedMany ⟨(machProcess (buf ++ c)).2⟩ cs).2.buf = _
    exact ih (machProcess (buf ++ c)).2
      (machProcess_snd_stripped (buf ++ c).length (buf ++ c) (le_refl _))

theorem machProcess_drop_noise (noise rest : List Nat) (h : ∀ x ∈ noise, x ≠ STX) :
    machProcess (noise ++ rest) = machProcess rest := by
  unfold machProcess
  rw [stripNoise_append_noise noise rest h]
  apply machGo_fuel_irrel
  · exact le_trans (length_stripNoise_le rest) (by simp)
  · exact length_stripNoise_le rest

/-- C3 as stated is false: when the payload of the corrupted copy contains the
start marker 0x02, the single-byte resync can lock onto a spurious candidate
that swallows the following valid frame.  Here the corrupted copy of
`build_frame 0x10 [2, 5, 10, 0]` (terminator flipped to 0) followed by the
frame itself decodes to a single bogus frame with `msg_id = 5` and a failed
checksum instead of the one valid frame. -/
theorem resync_counterexample :
    [2, 16, 4, 0, 2, 5, 10, 0, 37, 0] =
        (build_frame 0x10 [2, 5, 10, 0]).dropLast ++ [0] ∧
      (MachStreamParser.new.feed
          ([2, 16, 4, 0, 2, 5, 10, 0, 37, 0] ++ build_frame 0x10 [2, 5, 10, 0])).1 ≠
        [{ msg_id := 0x10, data := [2, 5, 10, 0], checksum_ok := true,
           checksum := calc_checksum 0x10 4 [2, 5, 10, 0],
           raw := build_frame 0x10 [2, 5, 10, 0] }] ∧
      ((MachStreamParser.new.feed
          ([2, 16, 4, 0, 2, 5, 10, 0, 37, 0] ++ build_frame 0x10 [2, 5, 10, 0])).1.map
        MachFrame.msg_id = [5]) := by
  refine ⟨by decide, by decide, by decide⟩

/-- C3 (amended): (a) skipping leading noise that contains no start marker
recovers the following frame exactly; (b) single-byte resync after a
corrupted terminator recovers the following copy of the frame exactly,
provided no byte of the corrupted copy after its start marker equals the
start marker 0x02 (and the substituted terminator is neither ETX nor STX). -/
theorem resync_recovers_frame (msg_id : Nat) (data : List Nat) (noise : List Nat)
    (c : Nat) (hn : data.length ≤ 65535) :
    ((∀ x ∈ noise, x ≠ STX) →
      (MachStreamParser.new.feed (noise ++ build_frame msg_id data)).1 =
        [{ msg_id := msg_id, data := data, checksum_ok := true,
           checksum := calc_checksum msg_id data.length data,
           raw := build_frame msg_id data }]) ∧
    (msg_id ≠ STX → data.length % 256 ≠ STX → data.length / 256 % 256 ≠ STX →
      (∀ x ∈ data, x ≠ STX) → calc_checksum msg_id data.length data ≠ STX →
      c ≠ ETX → c ≠ STX →
      (MachStreamParser.new.feed
          ((build_frame msg_id data).dropLast ++ [c] ++ build_frame msg_id data)).1 =
        [{ msg_id := msg_id, data := data, checksum_ok := true,
           checksum := calc_checksum msg_id data.length data,
           raw := build_frame msg_id data }]) := by
  constructor
  · intro hnoise
    show (machProcess ([] ++ (noise ++ build_frame msg_id data))).1 = _
    rw [List.nil_append, machProcess_drop_noise noise _ hnoise,
      machProcess_build msg_id data hn]
  · intro h1 h2 h3 h4d h5 h6 h7
    show (machProcess ([] ++
      ((build_frame msg_id data).dropLast ++ [c] ++ build_frame msg_id data))).1 = _
    rw [List.nil_append]
    have hdropLast : (build_frame msg_id data).dropLast =
        STX :: msg_id :: (data.length % 256) :: (data.length / 256 % 256) ::
          (data ++ [calc_checksum msg_id data.length data]) := by
      have hsplit : build_frame msg_id data =
          (STX :: msg_id :: (data.length % 256) :: (data.length / 256 % 256) ::
            (data ++ [calc_checksum msg_id data.length data])) ++ [ETX] := by
        simp [build_frame]
      rw [hsplit]
      exact List.dropLast_concat
    have hcor : (build_frame msg_id data).dropLast ++ [c] ++ build_frame msg_id data =
        STX :: msg_id :: (data.length % 256) :: (data.length / 256 % 256) ::
          ((data ++ [calc_checksum msg_id data.length data]) ++
            ([c] ++ build_frame msg_id data)) := by
      rw [hdropLast]
      simp
    rw [hcor]
    have hlenA : (STX :: msg_id :: (data.length % 256) :: (data.length / 256 % 256) ::
        ((data ++ [calc_checksum msg_id data.length data]) ++
          ([c] ++ build_frame msg_id data))).length = 2 * data.length + 12 := by
      simp [build_frame_length]
      omega
    have hdlA : frameDatalen (STX :: msg_id :: (data.length % 256) ::
        (data.length / 256 % 256) ::
        ((data ++ [calc_checksum msg_id data.length data]) ++
          ([c] ++ build_frame msg_id data))) = data.length := by
      unfold frameDatalen
      simp only [List.getD_cons_succ, List.getD_cons_zero]
      omega
    have hTotA : frameTotal (STX :: msg_id :: (data.length % 256) ::
        (data.length / 256 % 256) ::
        ((data ++ [calc_checksum msg_id data.length data]) ++
          ([c] ++ build_frame msg_id data))) = data.length + 6 := by
      unfold frameTotal
      rw [hdlA]
    have hEvalA : (STX :: msg_id :: (data.length % 256) :: (data.length / 256 % 256) ::
        ((data ++ [calc_checksum msg_id data.length data]) ++
          ([c] ++ build_frame msg_id data))).getD
        (frameTotal (STX :: msg_id :: (data.length % 256) :: (data.length / 256 % 256) ::
          ((data ++ [calc_checksum msg_id data.length data]) ++
            ([c] ++ build_frame msg_id data))) - 1) 0 = c := by
      rw [hTotA]
      have e1 : data.length + 6 - 1 = (data.length + 4) + 1 := by omega
      rw [e1, List.getD_cons_succ]
      have e2 : data.length + 4 = (data.length + 3) + 1 := by omega
      rw [e2, List.getD_cons_succ]
      have e3 : data.length + 3 = (data.length + 2) + 1 := by omega
      rw [e3, List.getD_cons_succ]
      have e4 : data.length + 2 = (data.length + 1) + 1 := by omega
      rw [e4, List.getD_cons_succ]
      rw [getD_append_right _ _ _ _ (by simp)]
      have e5 : data.length + 1 - (data ++ [calc_checksum msg_id data.length data]).length
          = 0 := by simp
      rw [e5]
      rfl
    rw [machProcess_resync _ (stripNoise_cons_stx _) (by omega)
      (by rw [hTotA]; omega) (by rw [hEvalA]; exact h6)]
    have hdrop1 : (STX :: msg_id :: (data.length % 256) :: (data.length / 256 % 256) ::
        ((data ++ [calc_checksum msg_id data.length data]) ++
          ([c] ++ build_frame msg_id data))).drop 1 =
        (msg_id :: (data.length % 256) :: (data.length / 256 % 256) ::
          ((data ++ [calc_checksum msg_id data.length data]) ++ [c])) ++
          build_frame msg_id data := by
      simp
    rw [hdrop1]
    have hall : ∀ x ∈ msg_id :: (data.length % 256) :: (data.length / 256 % 256) ::
        ((data ++ [calc_checksum msg_id data.length data]) ++ [c]), x ≠ STX := by
      intro x hx
      simp only [List.mem_cons, List.mem_append, List.mem_singleton, List.not_mem_nil,
        or_false] at hx
      rcases hx with h | h | h | (h | h) | h
      · rw [h]; exact h1
      · rw [h]; exact h2
      · rw [h]; exact h3
      · exact h4d x h
      · rw [h]; exact h5
      · rw [h]; exact h7
    rw [machProcess_drop_noise _ _ hall, machProcess_build msg_id data hn]

theorem resync_recovers_frame_witness :
    (∀ x ∈ [0, 1, 255], x ≠ STX) ∧
      (MachStreamParser.new.feed ([0, 1, 255] ++ build_frame 0x10 [5])).1 =
        [{ msg_id := 0x10, data := [5], checksum_ok := true,
           checksum := calc_checksum 0x10 1 [5],
           raw := build_frame 0x10 [5] }] ∧
      (MachStreamParser.new.feed
          ((build_frame 0x10 [5]).dropLast ++ [0] ++ build_frame 0x10 [5])).1 =
        [{ msg_id := 0x10, data := [5], checksum_ok := true,
           checksum := calc_checksum 0x10 1 [5],
           raw := build_frame 0x10 [5] }] :=
  ⟨by decide,
    (resync_recovers_frame 0x10 [5] [0, 1, 255] 0 (by decide)).1 (by decide),
    (resync_recovers_frame 0x10 [5] [0, 1, 255] 0 (by decide)).2 (by decide) (by decide)
      (by decide) (by decide) (by decide) (by decide) (by decide)⟩

/-! ### Python string formatting helpers

Models of the f-string conversions used by the sources: `{n:d}` (decimal),
`{n:0kd}` (zero-padded decimal), `{n:X}` (uppercase hex) and `{n:0kX}`
(zero-padded uppercase hex), for non-negative integers. -/

def decDigitChar (n : Nat) : Char :=
  match n with
  | 0 => '0' | 1 => '1' | 2 => '2' | 3 => '3' | 4 => '4'
  | 5 => '5' | 6 => '6' | 7 => '7' | 8 => '8' | _ => '9'

def hexDigitChar (n : Nat) : Char :=
  match n with
  | 0 => '0' | 1 => '1' | 2 => '2' | 3 => '3' | 4 => '4'
  | 5 => '5' | 6 => '6' | 7 => '7' | 8 => '8' | 9 => '9'
  | 10 => 'A' | 11 => 'B' | 12 => 'C' | 13 => 'D' | 14 => 'E' | _ => 'F'

def decCharsAux : Nat → Nat → List Char
  | 0, _ => []
  | _ + 1, 0 => []
  | fuel + 1, n => decCharsAux fuel (n / 10) ++ [decDigitChar (n % 10)]

def hexCharsAux : Nat → Nat → List Char
  | 0, _ => []
  | _ + 1, 0 => []
  | fuel + 1, n => hexCharsAux fuel (n / 16) ++ [hexDigitChar (n % 16)]

def pyDec (n : Nat) : String :=
  if n = 0 then "0" else String.mk (decCharsAux n n)

def pyDecPad (width n : Nat) : String :=
  let s := pyDec n
  String.mk (List.replicate (width - s.length) '0') ++ s

def pyHex (n : Nat) : String :=
  if n = 0 then "0" else String.mk (hexCharsAux n n)

def pyHexPad (width n : Nat) : String :=
  let s := pyHex n
  String.mk (List.replicate (width - s.length) '0') ++ s

/-! ### sensor_803405.py -/

/-- Transfer function: `p_rel / bar = 0.00825 * DigitValue - 1.65`,
over exact rationals. -/
def pressure_bar_from_digit_value (digit_value : Nat) : ℚ :=
  825 / 100000 * (digit_value : ℚ) - 165 / 100

def PRESSURE_INIT_DIGIT_VALUE : Nat := 0
def PRESSURE_LOW_CLAMP_MAX_DIGIT_VALUE : Nat := 1
def PRESSURE_HIGH_CLAMP_MIN_DIGIT_VALUE : Nat := 4088
def PRESSURE_ERROR_DIGIT_VALUE : Nat := 4090

/-- Human-readable state derived from DigitValue ranges, in source order:
error sentinel first, then high clamp, initialization, low clamp, OK. -/
def pressure_state_from_digit_value (digit_value : Nat) : String :=
  if digit_value = PRESSURE_ERROR_DIGIT_VALUE then "ERROR_CODE_4090"
  else if PRESSURE_HIGH_CLAMP_MIN_DIGIT_VALUE ≤ digit_value ∧
      digit_value < PRESSURE_ERROR_DIGIT_VALUE then "HIGH_CLAMP"
  else if digit_value = PRESSURE_INIT_DIGIT_VALUE then "INITIALIZATION"
  else if 0 < digit_value ∧ digit_value ≤ PRESSURE_LOW_CLAMP_MAX_DIGIT_VALUE then "LOW_CLAMP"
  else "OK"

/-- `T / °C = 0.125 * Tval - 73.15`, over exact rationals. -/
def temperature_c_from_tval (tval : Nat) : ℚ :=
  125 / 1000 * (tval : ℚ) - 7315 / 100

def DIAG_ERROR_TEXT : List (Nat × String) :=
  [(0x000, "No error"),
   (0x900, "Sensor supply undervoltage"),
   (0x901, "Sensor supply overvoltage"),
   (0xFC1, "IC internal hardware error"),
   (0xFC2, "IC internal ADC or Gain error"),
   (0xF01, "Bridge connections check failed"),
   (0xF02, "Bridge output short check failed"),
   (0xF03, "Bridge common mode check failed"),
   (0xF04, "Pressure ADC saturation error"),
   (0xD05, "Internal IC Temperature error"),
   (0xF05, "Internal math saturation")]

def SLOW_ID_DEFINITION : List (Nat × String) :=
  [(0x01, "DiagnosticErrorCodes"),
   (0x03, "SensorType"),
   (0x04, "ManufacturerType"),
   (0x05, "ManufacturerCode"),
   (0x06, "SENTStandardRevision"),
   (0x07, "PressureCharacteristicX1"),
   (0x08, "PressureCharacteristicX2"),
   (0x09, "PressureCharacteristicY1"),
   (0x0A, "PressureCharacteristicY2"),
   (0x23, "InternalTemperature"),
   (0x29, "SensorIdSerialLast3"),
   (0x2A, "SensorIdSerialFirst3"),
   (0x2B, "DateCodeLast3"),
   (0x2C, "DateCodeFirst2")]

structure DecodedSlow where
  msg_id : Nat
  name : String
  raw : Nat
  text : Option String := none
  value : Option ℚ := none
  unit : Option String := none
deriving DecidableEq, Repr

/-- Models Python `f"{q:.3f}"` for the pressure texts: round to 3 decimals
(half away from zero; binary-float tie artifacts are outside the model). -/
def fmt3 (q : ℚ) : String :=
  if q < 0 then
    "-" ++ fmt3Abs (-q)
  else
    fmt3Abs q
where
  fmt3Abs (x : ℚ) : String :=
    let m := (Int.floor (x * 1000 + 1 / 2)).toNat
    pyDec (m / 1000) ++ "." ++ pyDecPad 3 (m % 1000)

/-- Decodes the 12-bit data field of an enhanced slow message. -/
def decode_slow_value (msg_id : Nat) (raw_value : Nat) : DecodedSlow :=
  let name := (SLOW_ID_DEFINITION.lookup msg_id).getD ("UnknownSlowId_0x" ++ pyHexPad 2 msg_id)
  -- 0x01: diagnostic error code
  if msg_id = 0x01 then
    { msg_id := msg_id, name := name, raw := raw_value
      text := some ((DIAG_ERROR_TEXT.lookup raw_value).getD
        ("Unknown diagnostic code 0x" ++ pyHexPad 3 raw_value)) }
  -- 0x23: internal temperature
  else if msg_id = 0x23 then
    { msg_id := msg_id, name := name, raw := raw_value
      value := some (temperature_c_from_tval raw_value), unit := some "°C" }
  -- 0x07 / 0x08: pressure characteristic X1/X2, given in bar
  else if msg_id = 0x07 then
    { msg_id := msg_id, name := name, raw := raw_value
      value := some 0, unit := some "bar"
      text := some ("X1 = 0 bar (raw=0x" ++ pyHexPad 3 raw_value ++ ")") }
  else if msg_id = 0x08 then
    { msg_id := msg_id, name := name, raw := raw_value
      value := some 30, unit := some "bar"
      text := some ("X2 = 30 bar (raw=0x" ++ pyHexPad 3 raw_value ++ ")") }
  -- 0x09 / 0x0A: pressure characteristic Y1/Y2 are DigitValues
  else if msg_id = 0x09 ∨ msg_id = 0x0A then
    let p := pressure_bar_from_digit_value raw_value
    let label := if msg_id = 0x09 then "Y1" else "Y2"
    { msg_id := msg_id, name := name, raw := raw_value
      value := some p, unit := some "bar"
      text := some (label ++ ": DigitValue=" ++ pyDec raw_value ++ " -> " ++ fmt3 p ++ " bar") }
  -- common static info ids
  else if msg_id = 0x03 then
    { msg_id := msg_id, name := name, raw := raw_value
      text := some ("Sensor type = 0x" ++ pyHexPad 3 raw_value) }
  else if msg_id = 0x04 then
    { msg_id := msg_id, name := name, raw := raw_value
      text := some ("Manufacturer type = 0x" ++ pyHexPad 3 raw_value) }
  else if msg_id = 0x05 then
    { msg_id := msg_id, name := name, raw := raw_value
      text := some ("Manufacturer code = 0x" ++ pyHexPad 3 raw_value) }
  else if msg_id = 0x06 then
    { msg_id := msg_id, name := name, raw := raw_value
      text := some ("SENT standard revision = 0x" ++ pyHexPad 3 raw_value) }
  -- ids used to compose serial/date
  else if msg_id = 0x29 then
    { msg_id := msg_id, name := name, raw := raw_value
      text := some ("serial last3 = " ++ pyDecPad 3 raw_value) }
  else if msg_id = 0x2A then
    { msg_id := msg_id, name := name, raw := raw_value
      text := some ("serial first3 = " ++ pyDecPad 3 raw_value) }
  else if msg_id = 0x2B then
    { msg_id := msg_id, name := name, raw := raw_value
      text := some ("date last3 (cw/day) = " ++ pyDecPad 3 raw_value) }
  else if msg_id = 0x2C then
    { msg_id := msg_id, name := name, raw := raw_value
      text := some ("date first2 (year) = " ++ pyDecPad 2 raw_value) }
  -- fallback
  else
    { msg_id := msg_id, name := name, raw := raw_value
      text := some ("0x" ++ pyHex raw_value ++ " (" ++ pyDec raw_value ++ ")") }

def combine_serial (first3 last3 : Nat) : String :=
  pyDecPad 3 first3 ++ pyDecPad 3 last3

def decode_date_code (year_2digits last3 : Nat) : String :=
  let cw := last3 / 10
  let day := last3 % 10
  "YY=" ++ pyDecPad 2 year_2digits ++ ", CW=" ++ pyDecPad 2 cw ++ ", D=" ++ pyDec day

/-! ### live_decode.py -/

def MSG_FAST_RX : Nat := 0x95
def MSG_SLOW_RX : Nat := 0x96
def MSG_FAST_ERR : Nat := 0x97
def MSG_SLOW_ERR : Nat := 0x98

def MSG_SENT_START : Nat := 0x74
def MSG_SENT_STOP : Nat := 0x75

def FAST_ERRTYPE_TEXT : List (Nat × String) :=
  [(0, "CRC mismatch"),
   (1, "Framing error (nibble length out of range)"),
   (2, "Adjacent sync error"),
   (3, "SENT bus error (wrong sync)")]

def SLOW_ERRTYPE_TEXT : List (Nat × String) :=
  [(0, "CRC"),
   (1, "Framing"),
   (2, "Sync")]

/-- `total_len == base_len + 8` (base length = length without timestamp). -/
def has_timestamp (total_len base_len : Nat) : Bool :=
  total_len == base_len + 8

/-- Split payload bytes into 4-bit nibbles, low nibble first unless swapped. -/
def decode_fast_nibbles : List Nat → Bool → List Nat
  | [], _ => []
  | b :: bs, swap =>
    let lo := b % 16
    let hi := b / 16 % 16
    (if swap then [hi, lo] else [lo, hi]) ++ decode_fast_nibbles bs swap

/-- `int.from_bytes(…, "little", signed=False)`. -/
def leBytesToNat (l : List Nat) : Nat :=
  l.foldr (fun b acc => b + 256 * acc) 0

/-- The dict returned by `decode_frame`, as a record with `Option` fields for
keys that are only present on some branches.  The wall-clock `pc_time` key is
outside the model. -/
structure DecodeOut where
  type : String
  msg_id : Nat
  raw_data : List Nat
  error : Option String := none
  channel : Option Nat := none
  status_nibble : Option Nat := none
  data_nibble_count : Option Nat := none
  data_nibbles : Option (List Nat) := none
  crc_rx : Option Nat := none
  crc_calc : Option Nat := none
  crc_ok : Option Bool := none
  timestamp_us : Option Nat := none
  sensor_digit_value : Option Nat := none
  sensor_pressure_bar : Option ℚ := none
  sensor_pressure_state : Option String := none
  sensor_rolling_counter : Option Nat := none
  sensor_invert_nibble : Option Nat := none
  sensor_invert_ok : Option Bool := none
  slow_id : Option Nat := none
  slow_raw : Option Nat := none
  format_bit : Option Nat := none
  frame_type : Option String := none
  decoded : Option DecodedSlow := none
  errtype : Option Nat := none
  errtype_text : Option String := none
  framing_error_code : Option Nat := none
deriving Repr

/-- Envelope payload decoding.  Bit extractions `(x >> k) & m` are written as
`x / 2^k % (m+1)`; nibble recompositions `a << k | b` on disjoint fields as
`a * 2^k + b`. -/
def decode_frame (msg_id : Nat) (data : List Nat)
    (swap_fast_data_nibbles : Bool := false) : DecodeOut :=
  let base : DecodeOut := { type := "other", msg_id := msg_id, raw_data := data }
  if msg_id = MSG_FAST_RX then
    if data.length < 3 then
      { base with type := "fast_rx", error := some "payload too short" }
    else
      let channel := data.getD 0 0
      let status_count := data.getD 1 0
      let status := status_count % 16
      let nibblecnt := status_count / 16 % 16
      let data_byte_count := (nibblecnt + 1) / 2  -- ceil(nibblecnt / 2)
      let base_len_no_ts := 2 + data_byte_count + 1
      let has_ts := has_timestamp data.length base_len_no_ts
      let crc_index := 2 + data_byte_count
      if data.length < base_len_no_ts then
        { base with type := "fast_rx", error := some "payload length mismatch" }
      else
        let data_bytes := (data.drop 2).take data_byte_count
        let crc_byte := data.getD crc_index 0
        let ts_us : Option Nat :=
          if has_ts then some (leBytesToNat (data.drop (data.length - 8))) else none
        let crc_rx := crc_byte % 16
        let crc_calc := crc_byte / 16 % 16
        let nibbles := (decode_fast_nibbles data_bytes swap_fast_data_nibbles).take nibblecnt
        -- sensor-specific (803405): first 3 nibbles form the 12-bit digit value
        let digit_value := nibbles.getD 0 0 * 256 + nibbles.getD 1 0 * 16 + nibbles.getD 2 0
        { base with
          type := "fast_rx"
          channel := some channel
          status_nibble := some status
          data_nibble_count := some nibblecnt
          data_nibbles := some nibbles
          crc_rx := some crc_rx
          crc_calc := some crc_calc
          crc_ok := some (crc_rx == crc_calc)
          timestamp_us := ts_us
          sensor_digit_value := if 3 ≤ nibbles.length then some digit_value else none
          sensor_pressure_bar :=
            if 3 ≤ nibbles.length then some (pressure_bar_from_digit_value digit_value) else none
          sensor_pressure_state :=
            if 3 ≤ nibbles.length then some (pressure_state_from_digit_value digit_value) else none
          sensor_rolling_counter :=
            if 5 ≤ nibbles.length then some (nibbles.getD 3 0 * 16 + nibbles.getD 4 0) else none
          sensor_invert_nibble :=
            if 6 ≤ nibbles.length then some (nibbles.getD 5 0) else none
          -- `(~n) & 0x0F` of a nibble `n < 16` is `15 - n`
          sensor_invert_ok :=
            if 6 ≤ nibbles.length then some (nibbles.getD 5 0 == 15 - nibbles.getD 0 0)
            else none }
  else if msg_id = MSG_SLOW_RX then
    -- channel, msg_id, data_lsb, data_msb, frame_info, crc_calc, [timestamp 8]
    if data.length < 6 then
      { base with type := "slow_rx", error := some "payload too short" }
    else
      let channel := data.getD 0 0
      let slow_id := data.getD 1 0
      let raw_val := data.getD 2 0 + data.getD 3 0 * 256
      let frame_info := data.getD 4 0
      let crc_calc := data.getD 5 0 % 64
      let base_len_no_ts := 6
      let has_ts := has_timestamp data.length base_len_no_ts
      let ts_us : Option Nat :=
        if has_ts then some (leBytesToNat (data.drop (data.length - 8))) else none
      let fmt := frame_info / 128 % 2
      let frametype := frame_info / 64 % 2
      let crc_rx := frame_info % 64
      let decoded := decode_slow_value slow_id raw_val
      { base with
        type := "slow_rx"
        channel := some channel
        slow_id := some slow_id
        slow_raw := some raw_val
        format_bit := some fmt
        frame_type := some (if frametype = 1 then "enhanced" else "short")
        crc_rx := some crc_rx
        crc_calc := some crc_calc
        crc_ok := some (crc_rx == crc_calc)
        timestamp_us := ts_us
        decoded := some decoded }
  else if msg_id = MSG_FAST_ERR then
    if data.length < 2 then
      { base with type := "fast_error", error := some "payload too short" }
    else
      let channel := data.getD 0 0
      let err := data.getD 1 0
      let errtype := err / 16 % 4  -- bits [5:4]
      let frmerrcode := err % 16
      let base_len_no_ts := 2
      let has_ts := has_timestamp data.length base_len_no_ts
      let ts_us : Option Nat :=
        if has_ts then some (leBytesToNat (data.drop (data.length - 8))) else none
      { base with
        type := "fast_error"
        channel := some channel
        errtype := some errtype
        errtype_text := some ((FAST_ERRTYPE_TEXT.lookup errtype).getD
          ("Unknown(" ++ pyDec errtype ++ ")"))
        framing_error_code := some frmerrcode
        timestamp_us := ts_us }
  else if msg_id = MSG_SLOW_ERR then
    if data.length < 2 then
      { base with type := "slow_error", error := some "payload too short" }
    else
      let channel := data.getD 0 0
      let err := data.getD 1 0
      let errtype := err / 16 % 4  -- bits [5:4]
      let base_len_no_ts := 2
      let has_ts := has_timestamp data.length base_len_no_ts
      let ts_us : Option Nat :=
        if has_ts then some (leBytesToNat (data.drop (data.length - 8))) else none
      { base with
        type := "slow_error"
        channel := some channel
        errtype := some errtype
        errtype_text := some ((SLOW_ERRTYPE_TEXT.lookup errtype).getD
          ("Unknown(" ++ pyDec errtype ++ ")"))
        timestamp_us := ts_us }
  else
    base

/-- Running correlation state kept by `enrich_state_from_slow_cache`. -/
structure SlowCache where
  serial_last3 : Option Nat := none
  serial_first3 : Option Nat := none
  date_last3 : Option Nat := none
  date_first2 : Option Nat := none
  serial_number : Option String := none
  date_code : Option String := none
deriving DecidableEq, Repr

def emptyCache : SlowCache := {}

/-- Store parts of slow messages and compose serial number / date code once
both halves are present. -/
def enrich_state_from_slow_cache (state : SlowCache) (decoded : DecodeOut) : SlowCache :=
  if decoded.type ≠ "slow_rx" then state
  else
    let s1 :=
      match decoded.slow_id with
      | some sid =>
        if sid = 0x29 then { state with serial_last3 := decoded.slow_raw }
        else if sid = 0x2A then { state with serial_first3 := decoded.slow_raw }
        else if sid = 0x2B then { state with date_last3 := decoded.slow_raw }
        else if sid = 0x2C then { state with date_first2 := decoded.slow_raw }
        else state
      | none => state
    let s2 :=
      match s1.serial_first3, s1.serial_last3 with
      | some a, some b => { s1 with serial_number := some (combine_serial a b) }
      | _, _ => s1
    match s2.date_first2, s2.date_last3 with
    | some y, some l => { s2 with date_code := some (decode_date_code y l) }
    | _, _ => s2

/-! ## Claims about the sensor decoding -/

/-- C4: `pressure_state_from_digit_value` classifies every digit value as the
spec orders: 0 → Initialization; (0,1] → LowClamp; [4088,4090) → HighClamp;
4090 → ErrorCode; everything else → OK. -/
theorem pressure_state_classification (d : Nat) :
    (d = 0 → pressure_state_from_digit_value d = "INITIALIZATION") ∧
    (0 < d → d ≤ 1 → pressure_state_from_digit_value d = "LOW_CLAMP") ∧
    (4088 ≤ d → d < 4090 → pressure_state_from_digit_value d = "HIGH_CLAMP") ∧
    (d = 4090 → pressure_state_from_digit_value d = "ERROR_CODE_4090") ∧
    (d ≠ 0 → ¬ (0 < d ∧ d ≤ 1) → ¬ (4088 ≤ d ∧ d < 4090) → d ≠ 4090 →
      pressure_state_from_digit_value d = "OK") := by
  unfold pressure_state_from_digit_value PRESSURE_ERROR_DIGIT_VALUE
    PRESSURE_HIGH_CLAMP_MIN_DIGIT_VALUE PRESSURE_INIT_DIGIT_VALUE
    PRESSURE_LOW_CLAMP_MAX_DIGIT_VALUE
  refine ⟨?_, ?_, ?_, ?_, ?_⟩ <;> intros <;> split_ifs <;> first | rfl | omega

theorem pressure_state_classification_witness :
    pressure_state_from_digit_value 0 = "INITIALIZATION" ∧
    pressure_state_from_digit_value 1 = "LOW_CLAMP" ∧
    pressure_state_from_digit_value 4088 = "HIGH_CLAMP" ∧
    pressure_state_from_digit_value 4089 = "HIGH_CLAMP" ∧
    pressure_state_from_digit_value 4090 = "ERROR_CODE_4090" ∧
    pressure_state_from_digit_value 2048 = "OK" :=
  ⟨(pressure_state_classification 0).1 rfl,
   (pressure_state_classification 1).2.1 (by decide) (by decide),
   (pressure_state_classification 4088).2.2.1 (by decide) (by decide),
   (pressure_state_classification 4089).2.2.1 (by decide) (by decide),
   (pressure_state_classification 4090).2.2.2.1 rfl,
   (pressure_state_classification 2048).2.2.2.2 (by decide) (by decide) (by decide) (by decide)⟩

/-- C5 as stated is false: over exact rationals,
`0.00825 * 2048 - 1.65 = 15.246`, which is not within half a thousandth of
the spec's `15.257` (so it does not round to `15.257`). -/
theorem pressure_bar_2048_counterexample :
    pressure_bar_from_digit_value 2048 = 15246 / 1000 ∧
      ¬ |pressure_bar_from_digit_value 2048 - 15257 / 1000| ≤ 1 / 2000 := by
  constructor
  · unfold pressure_bar_from_digit_value
    norm_num
  · unfold pressure_bar_from_digit_value
    rw [abs_of_nonpos (by norm_num)]
    norm_num

/-- C5 (amended): for `digit_value = 2048` the transfer function yields
exactly `15.246` bar (`pressure_bar ≈ 15.246`, not `15.257`). -/
theorem pressure_bar_2048 :
    pressure_bar_from_digit_value 2048 = 15246 / 1000 := by
  unfold pressure_bar_from_digit_value
  norm_num

/-- C7 as stated is false: the fallback name produced by `decode_slow_value`
for an unknown id is `UnknownSlowId_0x{id:02X}`, not `Unknown_0x{id:02X}`. -/
theorem unknown_slow_id_counterexample :
    (decode_slow_value 0x2D 7).name = "UnknownSlowId_0x2D" ∧
      (decode_slow_value 0x2D 7).name ≠ "Unknown_0x2D" ∧
      (decode_slow_value 0x2D 7).raw = 7 := by
  refine ⟨by decide, by decide, by decide⟩

/-- C7 (amended): every slow id outside the dispatch table decodes, without
failing, to a record named `UnknownSlowId_0x{id:02X}` carrying the raw value
unchanged. -/
theorem unknown_slow_id_decodes (sid raw : Nat)
    (h : SLOW_ID_DEFINITION.lookup sid = none) :
    (decode_slow_value sid raw).name = "UnknownSlowId_0x" ++ pyHexPad 2 sid ∧
      (decode_slow_value sid raw).raw = raw := by
  have h01 : ¬ sid = 0x01 := by intro e; rw [e] at h; simp [SLOW_ID_DEFINITION, List.lookup] at h
  have h03 : ¬ sid = 0x03 := by intro e; rw [e] at h; simp [SLOW_ID_DEFINITION, List.lookup] at h
  have h04 : ¬ sid = 0x04 := by intro e; rw [e] at h; simp [SLOW_ID_DEFINITION, List.lookup] at h
  have h05 : ¬ sid = 0x05 := by intro e; rw [e] at h; simp [SLOW_ID_DEFINITION, List.lookup] at h
  have h06 : ¬ sid = 0x06 := by intro e; rw [e] at h; simp [SLOW_ID_DEFINITION, List.lookup] at h
  have h07 : ¬ sid = 0x07 := by intro e; rw [e] at h; simp [SLOW_ID_DEFINITION, List.lookup] at h
  have h08 : ¬ sid = 0x08 := by intro e; rw [e] at h; simp [SLOW_ID_DEFINITION, List.lookup] at h
  have h09 : ¬ sid = 0x09 := by intro e; rw [e] at h; simp [SLOW_ID_DEFINITION, List.lookup] at h
  have h0A : ¬ sid = 0x0A := by intro e; rw [e] at h; simp [SLOW_ID_DEFINITION, List.lookup] at h
  have h23 : ¬ sid = 0x23 := by intro e; rw [e] at h; simp [SLOW_ID_DEFINITION, List.lookup] at h
  have h29 : ¬ sid = 0x29 := by intro e; rw [e] at h; simp [SLOW_ID_DEFINITION, List.lookup] at h
  have h2A : ¬ sid = 0x2A := by intro e; rw [e] at h; simp [SLOW_ID_DEFINITION, List.lookup] at h
  have h2B : ¬ sid = 0x2B := by intro e; rw [e] at h; simp [SLOW_ID_DEFINITION, List.lookup] at h
  have h2C : ¬ sid = 0x2C := by intro e; rw [e] at h; simp [SLOW_ID_DEFINITION, List.lookup] at h
  constructor <;>
    · unfold decode_slow_value
      simp [h, h01, h03, h04, h05, h06, h07, h08, h09, h0A, h23, h29, h2A, h2B, h2C]

theorem unknown_slow_id_decodes_witness :
    SLOW_ID_DEFINITION.lookup 0x2D = none ∧
      (decode_slow_value 0x2D 7).name = "UnknownSlowId_0x" ++ pyHexPad 2 0x2D ∧
      (decode_slow_value 0x2D 7).raw = 7 :=
  ⟨by decide, (unknown_slow_id_decodes 0x2D 7 (by decide)).1,
    (unknown_slow_id_decodes 0x2D 7 (by decide)).2⟩

/-- C9: from an empty correlation state, caching SlowReception(0x2A, raw 123)
and SlowReception(0x29, raw 456) — in either order — yields
`serial_number = "123456"`; caching only one of the two leaves it absent. -/
theorem serial_number_correlation :
    (enrich_state_from_slow_cache
        (enrich_state_from_slow_cache emptyCache (decode_frame 0x96 [0, 0x2A, 123, 0, 0, 0]))
        (decode_frame 0x96 [0, 0x29, 200, 1, 0, 0])).serial_number = some "123456" ∧
    (enrich_state_from_slow_cache
        (enrich_state_from_slow_cache emptyCache (decode_frame 0x96 [0, 0x29, 200, 1, 0, 0]))
        (decode_frame 0x96 [0, 0x2A, 123, 0, 0, 0])).serial_number = some "123456" ∧
    (enrich_state_from_slow_cache emptyCache
        (decode_frame 0x96 [0, 0x2A, 123, 0, 0, 0])).serial_number = none ∧
    (enrich_state_from_slow_cache emptyCache
        (decode_frame 0x96 [0, 0x29, 200, 1, 0, 0])).serial_number = none ∧
    (decode_frame 0x96 [0, 0x2A, 123, 0, 0, 0]).slow_raw = some 123 ∧
    (decode_frame 0x96 [0, 0x29, 200, 1, 0, 0]).slow_raw = some 456 ∧
    combine_serial 123 456 = "123456" := by
  refine ⟨by decide, by decide, by decide, by decide, by decide, by decide, by decide⟩

/-- C6 as stated is false: the slow-error text table has only three entries
(codes 0–2), so a slow-error message whose 2-bit error-type code is 3 falls
through to the unknown-code fallback `Unknown(3)` rather than a table text. -/
theorem slow_errtype_counterexample :
    (decode_frame 0x98 [0, 0x30]).errtype = some 3 ∧
      (decode_frame 0x98 [0, 0x30]).errtype_text = some "Unknown(3)" ∧
      SLOW_ERRTYPE_TEXT.lookup 3 = none ∧
      "Unknown(3)" ∉ SLOW_ERRTYPE_TEXT.map Prod.snd := by
  refine ⟨by decide, by decide, by decide, by decide⟩

/-- C6 (amended): fast errors map every 2-bit code 0–3 through the 4-entry
fast table; slow errors map codes 0–2 through the 3-entry slow table, while
slow code 3 yields the fallback text `Unknown(3)`. -/
theorem errtype_table_decode (ch top code lo : Nat) (hcode : code < 4) (hlo : lo < 16) :
    (decode_frame MSG_FAST_ERR [ch, top * 64 + code * 16 + lo]).errtype_text =
      some (if code = 0 then "CRC mismatch"
        else if code = 1 then "Framing error (nibble length out of range)"
        else if code = 2 then "Adjacent sync error"
        else "SENT bus error (wrong sync)") ∧
    (decode_frame MSG_SLOW_ERR [ch, top * 64 + code * 16 + lo]).errtype_text =
      some (if code = 0 then "CRC"
        else if code = 1 then "Framing"
        else if code = 2 then "Sync"
        else "Unknown(3)") := by
  have he : (top * 64 + code * 16 + lo) / 16 % 4 = code := by omega
  constructor
  · show (decode_frame MSG_FAST_ERR [ch, top * 64 + code * 16 + lo]).errtype_text = _
    unfold decode_frame
    norm_num [MSG_FAST_RX, MSG_SLOW_RX, MSG_FAST_ERR, MSG_SLOW_ERR, he]
    interval_cases code <;> decide
  · show (decode_frame MSG_SLOW_ERR [ch, top * 64 + code * 16 + lo]).errtype_text = _
    unfold decode_frame
    norm_num [MSG_FAST_RX, MSG_SLOW_RX, MSG_FAST_ERR, MSG_SLOW_ERR, he]
    interval_cases code <;> decide

theorem errtype_table_decode_witness :
    3 < 4 ∧ 5 < 16 ∧
      (decode_frame MSG_FAST_ERR [0, 1 * 64 + 3 * 16 + 5]).errtype_text =
        some "SENT bus error (wrong sync)" ∧
      (decode_frame MSG_SLOW_ERR [0, 1 * 64 + 3 * 16 + 5]).errtype_text =
        some "Unknown(3)" :=
  ⟨by decide, by decide,
    (errtype_table_decode 0 1 3 5 (by decide) (by decide)).1,
    (errtype_table_decode 0 1 3 5 (by decide) (by decide)).2⟩

theorem decode_frame_type_fast_rx (data : List Nat) (swap : Bool) :
    (decode_frame MSG_FAST_RX data swap).type = "fast_rx" := by
  simp only [decode_frame]
  rw [if_pos trivial]
  by_cases h3 : data.length < 3
  · rw [if_pos h3]
  · rw [if_neg h3]
    by_cases hm : data.length < 2 + (data.getD 1 0 / 16 % 16 + 1) / 2 + 1
    · rw [if_pos hm]
    · rw [if_neg hm]

theorem decode_frame_type_slow_rx (data : List Nat) (swap : Bool) :
    (decode_frame MSG_SLOW_RX data swap).type = "slow_rx" := by
  simp only [decode_frame]
  rw [if_neg (by decide : ¬ MSG_SLOW_RX = MSG_FAST_RX), if_pos trivial]
  by_cases h6 : data.length < 6
  · rw [if_pos h6]
  · rw [if_neg h6]

theorem decode_frame_type_fast_error (data : List Nat) (swap : Bool) :
    (decode_frame MSG_FAST_ERR data swap).type = "fast_error" := by
  simp only [decode_frame]
  rw [if_neg (by decide : ¬ MSG_FAST_ERR = MSG_FAST_RX),
    if_neg (by decide : ¬ MSG_FAST_ERR = MSG_SLOW_RX), if_pos trivial]
  by_cases h2 : data.length < 2
  · rw [if_pos h2]
  · rw [if_neg h2]

theorem decode_frame_type_slow_error (data : List Nat) (swap : Bool) :
    (decode_frame MSG_SLOW_ERR data swap).type = "slow_error" := by
  simp only [decode_frame]
  rw [if_neg (by decide : ¬ MSG_SLOW_ERR = MSG_FAST_RX),
    if_neg (by decide : ¬ MSG_SLOW_ERR = MSG_SLOW_RX),
    if_neg (by decide : ¬ MSG_SLOW_ERR = MSG_FAST_ERR), if_pos trivial]
  by_cases h2 : data.length < 2
  · rw [if_pos h2]
  · rw [if_neg h2]

theorem decode_frame_type_other (msg_id : Nat) (data : List Nat) (swap : Bool)
    (h95 : msg_id ≠ MSG_FAST_RX) (h96 : msg_id ≠ MSG_SLOW_RX)
    (h97 : msg_id ≠ MSG_FAST_ERR) (h98 : msg_id ≠ MSG_SLOW_ERR) :
    (decode_frame msg_id data swap).type = "other" := by
  simp only [decode_frame]
  rw [if_neg h95, if_neg h96, if_neg h97, if_neg h98]

/-- C8: for each recognized message id, a payload shorter than the kind's
minimum length decodes to a record tagged with that kind and an explicit
"payload too short" condition; more generally, decoding always returns a
record tagged with one of the five kinds and never fails. -/
theorem decode_frame_robust (msg_id : Nat) (data : List Nat) :
    ((decode_frame MSG_FAST_RX data).type = "fast_rx") ∧
    (data.length < 3 → (decode_frame MSG_FAST_RX data).error = some "payload too short") ∧
    ((decode_frame MSG_SLOW_RX data).type = "slow_rx") ∧
    (data.length < 6 → (decode_frame MSG_SLOW_RX data).error = some "payload too short") ∧
    ((decode_frame MSG_FAST_ERR data).type = "fast_error") ∧
    (data.length < 2 → (decode_frame MSG_FAST_ERR data).error = some "payload too short") ∧
    ((decode_frame MSG_SLOW_ERR data).type = "slow_error") ∧
    (data.length < 2 → (decode_frame MSG_SLOW_ERR data).error = some "payload too short") ∧
    ((decode_frame msg_id data).type = "fast_rx" ∨
      (decode_frame msg_id data).type = "slow_rx" ∨
      (decode_frame msg_id data).type = "fast_error" ∨
      (decode_frame msg_id data).type = "slow_error" ∨
      (decode_frame msg_id data).type = "other") := by
  refine ⟨decode_frame_type_fast_rx data false, ?_, decode_frame_type_slow_rx data false, ?_,
    decode_frame_type_fast_error data false, ?_, decode_frame_type_slow_error data false, ?_, ?_⟩
  · intro h
    simp only [decode_frame]
    rw [if_pos trivial, if_pos h]
  · intro h
    simp only [decode_frame]
    rw [if_neg (by decide : ¬ MSG_SLOW_RX = MSG_FAST_RX), if_pos trivial, if_pos h]
  · intro h
    simp only [decode_frame]
    rw [if_neg (by decide : ¬ MSG_FAST_ERR = MSG_FAST_RX),
      if_neg (by decide : ¬ MSG_FAST_ERR = MSG_SLOW_RX), if_pos trivial, if_pos h]
  · intro h
    simp only [decode_frame]
    rw [if_neg (by decide : ¬ MSG_SLOW_ERR = MSG_FAST_RX),
      if_neg (by decide : ¬ MSG_SLOW_ERR = MSG_SLOW_RX),
      if_neg (by decide : ¬ MSG_SLOW_ERR = MSG_FAST_ERR), if_pos trivial, if_pos h]
  · by_cases h95 : msg_id = MSG_FAST_RX
    · rw [h95]
      exact Or.inl (decode_frame_type_fast_rx data false)
    · by_cases h96 : msg_id = MSG_SLOW_RX
      · rw [h96]
        exact Or.inr (Or.inl (decode_frame_type_slow_rx data false))
      · by_cases h97 : msg_id = MSG_FAST_ERR
        · rw [h97]
          exact Or.inr (Or.inr (Or.inl (decode_frame_type_fast_error data false)))
        · by_cases h98 : msg_id = MSG_SLOW_ERR
          · rw [h98]
            exact Or.inr (Or.inr (Or.inr (Or.inl (decode_frame_type_slow_error data false))))
          · exact Or.inr (Or.inr (Or.inr (Or.inr
              (decode_frame_type_other msg_id data false h95 h96 h97 h98))))

theorem decode_frame_robust_witness :
    ([] : List Nat).length < 3 ∧ ([] : List Nat).length < 6 ∧ ([] : List Nat).length < 2 ∧
      (decode_frame MSG_FAST_RX []).error = some "payload too short" ∧
      (decode_frame MSG_SLOW_RX []).error = some "payload too short" ∧
      (decode_frame MSG_FAST_ERR []).error = some "payload too short" ∧
      (decode_frame MSG_SLOW_ERR []).error = some "payload too short" ∧
      (decode_frame 0x42 [1, 2, 3]).type = "other" :=
  ⟨by decide, by decide, by decide,
    (decode_frame_robust 0x42 []).2.1 (by decide),
    (decode_frame_robust 0x42 []).2.2.2.1 (by decide),
    (decode_frame_robust 0x42 []).2.2.2.2.2.1 (by decide),
    (decode_frame_robust 0x42 []).2.2.2.2.2.2.2.1 (by decide),
    by decide⟩

end SentTool
